import Mathlib

/-!
Shallow embedding of the `ToggleInput` web component (src/toggle-input.js).

The component keeps an internal native `<input type="checkbox">`
(`this._native`), mirrors its state into host attributes, participates in
forms either through `ElementInternals` (`this._internals`) or through a
hidden `<input type="hidden">` appended to the form (`this._hiddenInput`),
and dispatches `input`/`change` events only from user interactions.

The model is explicit state passing: every mutating method of the class
becomes a function `ToggleState → ToggleState` (paired with the list of
events the component dispatches on the host where relevant).  DOM behaviour
the component relies on is part of the model: `setAttribute` /
`removeAttribute` fire `attributeChangedCallback` after the change, and
`this._native.click()` performs the checkbox activation steps of the HTML
standard (clear the `indeterminate` IDL attribute, toggle checkedness, then
fire `input` followed by `change` on the checkbox).
-/

namespace ToggleInput

/-- The observed host attributes the model tracks.  `autofocus` and
`tabindex` are observed by the component as well but only trigger focus
behaviour, which carries no modelled state. -/
inductive AttrName where
  | checked
  | disabled
  | name
  | value
  | required
  | indeterminate
  | ariaLabel
  deriving DecidableEq, Repr

/-- The internal native checkbox `this._native` (the fields the component
reads or writes). -/
structure NativeCheckbox where
  checked : Bool
  disabled : Bool
  indeterminate : Bool
  name : String
  value : String
  deriving DecidableEq, Repr

/-- The host element's tracked attributes; `none` means the attribute is
absent, `some v` that it is present with value `v`. -/
structure Attrs where
  checked : Option String
  disabled : Option String
  name : Option String
  value : Option String
  required : Option String
  indeterminate : Option String
  ariaLabel : Option String
  deriving DecidableEq, Repr

/-- `ElementInternals` validity flags as driven by `setValidity`. -/
structure Validity where
  valueMissing : Bool
  customError : Bool
  deriving DecidableEq, Repr

/-- `ValidityState.valid`: true when no flag is set. -/
def Validity.valid (v : Validity) : Bool := !v.valueMissing && !v.customError

/-- The `ElementInternals` state the component drives. -/
structure Internals where
  formValue : Option String
  validity : Validity
  deriving DecidableEq, Repr

/-- The fallback hidden `<input type="hidden">` appended to the form;
both its `name` and `value` content attributes are removable. -/
structure HiddenInput where
  nameAttr : Option String
  valueAttr : Option String
  deriving DecidableEq, Repr

/-- A DOM event the component dispatches on the host element. -/
structure Ev where
  name : String
  bubbles : Bool
  composed : Bool
  deriving DecidableEq, Repr

/-- `new InputEvent('input', { bubbles: true, composed: true })`. -/
def inputEv : Ev := { name := "input", bubbles := true, composed := true }

/-- `new Event('change', { bubbles: true, composed: true })`. -/
def changeEv : Ev := { name := "change", bubbles := true, composed := true }

/-- `new MouseEvent('click', { bubbles: true, composed: true, cancelable: true })`. -/
def clickEv : Ev := { name := "click", bubbles := true, composed := true }

/-- The whole modelled state of one `ToggleInput` element. -/
structure ToggleState where
  native : NativeCheckbox
  attrs : Attrs
  ariaInvalid : Bool
  internals : Option Internals
  hiddenInput : Option HiddenInput
  customValidity : String
  defaultChecked : Bool
  defaultIndeterminate : Bool
  isConnected : Bool
  inForm : Bool
  deriving DecidableEq, Repr

/-- `this.getAttribute(a)` for the tracked attributes. -/
def getAttr (s : ToggleState) (a : AttrName) : Option String :=
  match a with
  | .checked => s.attrs.checked
  | .disabled => s.attrs.disabled
  | .name => s.attrs.name
  | .value => s.attrs.value
  | .required => s.attrs.required
  | .indeterminate => s.attrs.indeterminate
  | .ariaLabel => s.attrs.ariaLabel

/-- Write a tracked attribute slot without firing the callback. -/
def setAttrRaw (s : ToggleState) (a : AttrName) (v : Option String) : ToggleState :=
  match a with
  | .checked => { s with attrs := { s.attrs with checked := v } }
  | .disabled => { s with attrs := { s.attrs with disabled := v } }
  | .name => { s with attrs := { s.attrs with name := v } }
  | .value => { s with attrs := { s.attrs with value := v } }
  | .required => { s with attrs := { s.attrs with required := v } }
  | .indeterminate => { s with attrs := { s.attrs with indeterminate := v } }
  | .ariaLabel => { s with attrs := { s.attrs with ariaLabel := v } }

/-- `this.hasAttribute(a)`. -/
def hasAttr (s : ToggleState) (a : AttrName) : Bool := (getAttr s a).isSome

/-- `get value()`: `this.getAttribute('value') ?? 'on'`. -/
def valueProp (s : ToggleState) : String := (getAttr s .value).getD "on"

/-- `get required()`: `this.hasAttribute('required')`. -/
def requiredProp (s : ToggleState) : Bool := hasAttr s .required

/-- JS truthiness of `this.name` (`getAttribute('name')`): present and
non-empty. -/
def nameTruthy (s : ToggleState) : Bool :=
  match getAttr s .name with
  | some n => n != ""
  | none => false

/-- The body of `_updateHiddenInput` once the hidden input exists: when the
native checkbox is checked set `name = this.name || ''` and
`value = this.value`, otherwise remove both attributes. -/
def updateHiddenCore (s : ToggleState) : ToggleState :=
  match s.hiddenInput with
  | none => s
  | some _ =>
    if s.native.checked then
      { s with hiddenInput :=
                 some ({ nameAttr := some ((getAttr s .name).getD ""),
                         valueAttr := some (valueProp s) }) }
    else
      { s with hiddenInput := some { nameAttr := none, valueAttr := none } }

/-- `_ensureHiddenInput`: bail out when disconnected; drop the hidden input
when there is no surrounding form; create it (and fill it in) when there is
no `ElementInternals`, the element is in a form, none exists yet and the
element has a truthy name. -/
def ensureHiddenInput (s : ToggleState) : ToggleState :=
  if !s.isConnected then s
  else if !s.inForm then
    if s.hiddenInput.isSome then { s with hiddenInput := none } else s
  else if s.internals.isNone && s.hiddenInput.isNone && nameTruthy s then
    updateHiddenCore
      { s with hiddenInput := some { nameAttr := getAttr s .name, valueAttr := none } }
  else s

/-- `_updateHiddenInput`: create the hidden input on demand through
`_ensureHiddenInput`, then write it (a freshly created one is written twice,
as in the source). -/
def updateHiddenInput (s : ToggleState) : ToggleState :=
  if s.hiddenInput.isSome then updateHiddenCore s
  else
    let s' := ensureHiddenInput s
    if s'.hiddenInput.isSome then updateHiddenCore s' else s'

/-- `_updateFormValue`: through `ElementInternals` when available
(`setFormValue(this.value)` when checked, `setFormValue(null)` otherwise),
through the hidden input fallback otherwise. -/
def updateFormValue (s : ToggleState) : ToggleState :=
  match s.internals with
  | some i =>
    if s.native.checked then
      { s with internals := some { i with formValue := some (valueProp s) } }
    else
      { s with internals := some { i with formValue := none } }
  | none => updateHiddenInput s

/-- `_updateValidity`: compute `valueMissing` and `customError`; drive
`setValidity` on the internals when present, the `aria-invalid` marker
otherwise. -/
def updateValidity (s : ToggleState) : ToggleState :=
  match s.internals with
  | some i =>
    { s with internals :=
               some ({ i with validity :=
                        { valueMissing := requiredProp s && !s.native.checked,
                          customError := s.customValidity != "" } }) }
  | none =>
    { s with ariaInvalid :=
               (requiredProp s && !s.native.checked) || s.customValidity != "" }

/-- `attributeChangedCallback(name, oldVal, newVal)`, run after the DOM
attribute already holds its new value: sync the native checkbox field, then
refresh the hidden input / form value for `name`, `value`, `checked`,
`indeterminate` and the validity for `required`, `checked`, `aria-label`
(`_render` only touches aria attributes and CSS classes, outside the model). -/
def attrChangedCallback (s : ToggleState) (a : AttrName) (oldV newV : Option String) :
    ToggleState :=
  if oldV = newV then s
  else
    let s1 :=
      match a with
      | .checked => { s with native := { s.native with checked := hasAttr s .checked } }
      | .disabled => { s with native := { s.native with disabled := hasAttr s .disabled } }
      | .name => { s with native := { s.native with name := (getAttr s .name).getD "" } }
      | .value => { s with native := { s.native with value := (getAttr s .value).getD "on" } }
      | .indeterminate =>
          { s with native := { s.native with indeterminate := hasAttr s .indeterminate } }
      | _ => s
    let s2 :=
      if a = .name ∨ a = .value ∨ a = .checked ∨ a = .indeterminate then
        updateFormValue (updateHiddenInput s1)
      else s1
    if a = .required ∨ a = .checked ∨ a = .ariaLabel then updateValidity s2 else s2

/-- `this.setAttribute(a, v)`: write the attribute, then fire the callback
with the old and new values. -/
def setAttribute (s : ToggleState) (a : AttrName) (v : String) : ToggleState :=
  attrChangedCallback (setAttrRaw s a (some v)) a (getAttr s a) (some v)

/-- `this.removeAttribute(a)`: removing an absent attribute fires no
callback. -/
def removeAttribute (s : ToggleState) (a : AttrName) : ToggleState :=
  match getAttr s a with
  | none => s
  | some w => attrChangedCallback (setAttrRaw s a none) a (some w) none

/-- The line shared by both native-event handlers and `toggle()`:
`if (checked) setAttribute('checked','') else removeAttribute('checked')`. -/
def syncCheckedAttr (s : ToggleState) : ToggleState :=
  if s.native.checked then setAttribute s .checked "" else removeAttribute s .checked

/-- The update cascade `_updateHiddenInput(); _updateFormValue();
_updateValidity();` shared by the handlers, `toggle()` and `_onFormReset`. -/
def refreshAll (s : ToggleState) : ToggleState :=
  updateValidity (updateFormValue (updateHiddenInput s))

/-- `_onNativeInput`: the listener for the internal checkbox's `input`
event; dispatches the host `input` event. -/
def onNativeInput (s : ToggleState) : ToggleState × List Ev :=
  let s1 := if s.native.indeterminate then removeAttribute s .indeterminate else s
  (refreshAll (syncCheckedAttr s1), [inputEv])

/-- `_onNativeChange`: the listener for the internal checkbox's `change`
event; dispatches the host `change` event. -/
def onNativeChange (s : ToggleState) : ToggleState × List Ev :=
  let s1 := if s.native.indeterminate then removeAttribute s .indeterminate else s
  (refreshAll (syncCheckedAttr s1), [changeEv])

/-- `this._native.click()`: the browser's checkbox activation behaviour —
set `indeterminate` to false, toggle checkedness, then fire `input` and
`change` on the checkbox, running the component's two listeners. -/
def nativeClick (s : ToggleState) : ToggleState × List Ev :=
  let s0 :=
    { s with native :=
               { s.native with indeterminate := false, checked := !s.native.checked } }
  let p1 := onNativeInput s0
  let p2 := onNativeChange p1.1
  (p2.1, p1.2 ++ p2.2)

/-- `_onClick`: ignore when disabled, otherwise click the native checkbox
and re-dispatch a host `click`. -/
def onClick (s : ToggleState) : ToggleState × List Ev :=
  if s.native.disabled then (s, [])
  else
    let p := nativeClick s
    (p.1, p.2 ++ [clickEv])

/-- `_onKeyDown`: ignore when disabled; space, `Spacebar` or `Enter` click
the native checkbox. -/
def onKeyDown (s : ToggleState) (key : String) : ToggleState × List Ev :=
  if s.native.disabled then (s, [])
  else if key = " " ∨ key = "Spacebar" ∨ key = "Enter" then nativeClick s
  else (s, [])

/-- `toggle()`: flip the native checkbox, clear its `indeterminate`
property, mirror `checked` into the attribute and refresh; dispatches no
event. -/
def toggleMethod (s : ToggleState) : ToggleState :=
  let s1 := { s with native := { s.native with checked := !s.native.checked } }
  let s2 :=
    if s1.native.indeterminate then
      { s1 with native := { s1.native with indeterminate := false } }
    else s1
  refreshAll (syncCheckedAttr s2)

/-- `_onFormReset`: restore the `checked` and `indeterminate` attributes
captured at connection time, then refresh. -/
def onFormReset (s : ToggleState) : ToggleState :=
  let s1 :=
    if s.defaultChecked then setAttribute s .checked ""
    else removeAttribute s .checked
  let s2 :=
    if s.defaultIndeterminate then setAttribute s1 .indeterminate ""
    else removeAttribute s1 .indeterminate
  refreshAll s2

/-- `set checked(val)`. -/
def setCheckedProp (s : ToggleState) (v : Bool) : ToggleState :=
  if v then setAttribute s .checked "" else removeAttribute s .checked

/-- `set disabled(val)`. -/
def setDisabledProp (s : ToggleState) (v : Bool) : ToggleState :=
  if v then setAttribute s .disabled "" else removeAttribute s .disabled

/-- `set indeterminate(val)`. -/
def setIndeterminateProp (s : ToggleState) (v : Bool) : ToggleState :=
  if v then setAttribute s .indeterminate "" else removeAttribute s .indeterminate

/-- `set required(val)`. -/
def setRequiredProp (s : ToggleState) (v : Bool) : ToggleState :=
  if v then setAttribute s .required "" else removeAttribute s .required

/-- `set name(v)`: `null` removes the attribute. -/
def setNameProp (s : ToggleState) (v : Option String) : ToggleState :=
  match v with
  | none => removeAttribute s .name
  | some x => setAttribute s .name x

/-- `set value(v)`: `null` removes the attribute. -/
def setValueProp (s : ToggleState) (v : Option String) : ToggleState :=
  match v with
  | none => removeAttribute s .value
  | some x => setAttribute s .value x

/-- `connectedCallback` state effects: capture the default `checked` /
`indeterminate` attributes, then `_updateFormValue(); _updateValidity();
_ensureHiddenInput();` (role/tabindex/aria bookkeeping, `_upgradeProperty`
and focus carry no modelled state). -/
def connectedCallback (s : ToggleState) : ToggleState :=
  ensureHiddenInput (updateValidity (updateFormValue
    { s with defaultChecked := hasAttr s .checked,
             defaultIndeterminate := hasAttr s .indeterminate }))

/-- Connecting the element to a document, inside a form or not. -/
def connect (s : ToggleState) (inForm : Bool) : ToggleState :=
  connectedCallback { s with isConnected := true, inForm := inForm }

/-- `disconnectedCallback` only unhooks listeners. -/
def disconnect (s : ToggleState) : ToggleState := { s with isConnected := false }

/-- `checkValidity()`: re-run `_updateValidity`, then report
`internals.validity.valid` or the fallback computation. -/
def checkValidityRun (s : ToggleState) : ToggleState × Bool :=
  let s' := updateValidity s
  match s'.internals with
  | some i => (s', i.validity.valid)
  | none => (s', !(requiredProp s' && !s'.native.checked) && s'.customValidity == "")

/-- `setCustomValidity(message)`. -/
def setCustomValidity (s : ToggleState) (message : String) : ToggleState :=
  let s1 := { s with customValidity := message }
  match s1.internals with
  | some i =>
    if s1.customValidity != "" then
      { s1 with internals :=
                  some { i with validity := { valueMissing := false, customError := true } } }
    else updateValidity s1
  | none => updateValidity s1

/-- One public operation on the element. -/
inductive Op where
  | setChecked (b : Bool)
  | setDisabled (b : Bool)
  | setIndeterminate (b : Bool)
  | setRequired (b : Bool)
  | setName (v : Option String)
  | setValue (v : Option String)
  | setAttr (a : AttrName) (v : String)
  | removeAttr (a : AttrName)
  | userClick
  | keyDown (key : String)
  | toggle
  | formReset
  | customMessage (m : String)
  | validityCheck
  | connectTo (inForm : Bool)
  | disconnectEl
  deriving DecidableEq, Repr

/-- Run one public operation, returning the new state and the events the
component dispatches on the host. -/
def applyOp (o : Op) (s : ToggleState) : ToggleState × List Ev :=
  match o with
  | .setChecked b => (setCheckedProp s b, [])
  | .setDisabled b => (setDisabledProp s b, [])
  | .setIndeterminate b => (setIndeterminateProp s b, [])
  | .setRequired b => (setRequiredProp s b, [])
  | .setName v => (setNameProp s v, [])
  | .setValue v => (setValueProp s v, [])
  | .setAttr a v => (setAttribute s a v, [])
  | .removeAttr a => (removeAttribute s a, [])
  | .userClick => onClick s
  | .keyDown k => onKeyDown s k
  | .toggle => (toggleMethod s, [])
  | .formReset => (onFormReset s, [])
  | .customMessage m => (setCustomValidity s m, [])
  | .validityCheck => ((checkValidityRun s).1, [])
  | .connectTo f => (connect s f, [])
  | .disconnectEl => (disconnect s, [])

/-- A freshly constructed element; `hasInternals` says whether the browser
provides `attachInternals`. -/
def mkToggle (hasInternals : Bool) : ToggleState :=
  { native :=
      { checked := false, disabled := false, indeterminate := false,
        name := "", value := "on" },
    attrs :=
      { checked := none, disabled := none, name := none, value := none,
        required := none, indeterminate := none, ariaLabel := none },
    ariaInvalid := false,
    internals :=
                if hasInternals then
                  some ({ formValue := none,
                          validity := { valueMissing := false, customError := false } })
                else none,
    hiddenInput := none,
    customValidity := "",
    defaultChecked := false,
    defaultIndeterminate := false,
    isConnected := false,
    inForm := false }

/-! ### Derived forms of the update functions

Each update function is re-expressed as a single record update; all
frame lemmas (which fields a function leaves alone) then follow by
projection. -/

/-- What `_updateHiddenInput` writes into an existing hidden input. -/
def coreWrite (s : ToggleState) : HiddenInput :=
  if s.native.checked then
    { nameAttr := some ((getAttr s .name).getD ""), valueAttr := some (valueProp s) }
  else { nameAttr := none, valueAttr := none }

/-- The hidden input after `updateHiddenCore`. -/
def hiddenAfterCore (s : ToggleState) : Option HiddenInput :=
  match s.hiddenInput with
  | none => none
  | some _ => some (coreWrite s)

/-- The hidden input after `_ensureHiddenInput`. -/
def ensureHidden (s : ToggleState) : Option HiddenInput :=
  if !s.isConnected then s.hiddenInput
  else if !s.inForm then none
  else if s.internals.isNone && s.hiddenInput.isNone && nameTruthy s then
    some (coreWrite s)
  else s.hiddenInput

/-- The hidden input after `_updateHiddenInput`. -/
def hiddenAfterUpd (s : ToggleState) : Option HiddenInput :=
  if s.hiddenInput.isSome then some (coreWrite s)
  else
    match ensureHidden s with
    | some _ => some (coreWrite s)
    | none => none

/-- The form value `_updateFormValue` reports: `this.value` when checked,
nothing otherwise. -/
def formValueOf (s : ToggleState) : Option String :=
  if s.native.checked then some (valueProp s) else none

/-- The internals after `_updateFormValue`. -/
def internalsAfterFV (s : ToggleState) : Option Internals :=
  s.internals.map (fun i => { i with formValue := formValueOf s })

/-- The hidden input after `_updateFormValue`. -/
def hiddenAfterFV (s : ToggleState) : Option HiddenInput :=
  match s.internals with
  | some _ => s.hiddenInput
  | none => hiddenAfterUpd s

/-- The validity flags `_updateValidity` computes. -/
def validityNow (s : ToggleState) : Validity :=
  { valueMissing := requiredProp s && !s.native.checked,
    customError := s.customValidity != "" }

/-- The internals after `_updateValidity`. -/
def internalsAfterUV (s : ToggleState) : Option Internals :=
  s.internals.map (fun i => { i with validity := validityNow s })

/-- The `aria-invalid` marker after `_updateValidity`. -/
def ariaAfterUV (s : ToggleState) : Bool :=
  match s.internals with
  | some _ => s.ariaInvalid
  | none => (validityNow s).valueMissing || (validityNow s).customError

/-- The native-checkbox synchronisation step of `attributeChangedCallback`
(lines 164-168 of the source), one attribute at a time. -/
def attrSync (s : ToggleState) (a : AttrName) : ToggleState :=
  match a with
  | .checked => { s with native := { s.native with checked := hasAttr s .checked } }
  | .disabled => { s with native := { s.native with disabled := hasAttr s .disabled } }
  | .name => { s with native := { s.native with name := (getAttr s .name).getD "" } }
  | .value => { s with native := { s.native with value := (getAttr s .value).getD "on" } }
  | .indeterminate =>
      { s with native := { s.native with indeterminate := hasAttr s .indeterminate } }
  | _ => s

/-- The refresh step of `attributeChangedCallback` (lines 172-178 of the
source): hidden input and form value for `name`/`value`/`checked`/
`indeterminate`, validity for `required`/`checked`/`aria-label`. -/
def attrReact (s : ToggleState) (a : AttrName) : ToggleState :=
  let s2 :=
    if a = .name ∨ a = .value ∨ a = .checked ∨ a = .indeterminate then
      updateFormValue (updateHiddenInput s)
    else s
  if a = .required ∨ a = .checked ∨ a = .ariaLabel then updateValidity s2 else s2

/-- The C1 synchronisation invariant: the `checked` property (read from the
internal native checkbox) agrees with the presence of the `checked`
attribute on the host. -/
def CheckedInv (s : ToggleState) : Prop := s.native.checked = hasAttr s .checked

/-- The form-value consistency predicate of C3, as the code realises it:
through `ElementInternals` the submitted value is `this.value` when checked
and nothing when unchecked, and the fallback hidden input carries
`this.value` (under the element's name) when checked and has neither a
`name` nor a `value` attribute when unchecked. -/
def internalsOk (s : ToggleState) : Bool :=
  match s.internals with
  | some i => i.formValue == formValueOf s
  | none => true

/-- The hidden-input half of the C3 predicate. -/
def hiddenOk (s : ToggleState) : Bool :=
  match s.hiddenInput with
  | some h =>
    if s.native.checked then
      h.nameAttr == some ((getAttr s .name).getD "") && h.valueAttr == some (valueProp s)
    else h.nameAttr == none && h.valueAttr == none
  | none => true

/-- Both halves of the C3 predicate. -/
def formOk (s : ToggleState) : Bool := internalsOk s && hiddenOk s

/-- An element whose `indeterminate` attribute was set programmatically (the
failing input of the indeterminate-synchronisation bug). -/
def indetToggleExample : ToggleState := setIndeterminateProp (mkToggle true) true

/-- The same failing input, used for the user-interaction path. -/
def indetClickExample : ToggleState := setIndeterminateProp (mkToggle false) true

/-- A disabled element. -/
def disabledExample : ToggleState := setDisabledProp (mkToggle true) true

/-- A named element connected inside a form, in a browser without
`attachInternals`. -/
def connExample : ToggleState := connect (setNameProp (mkToggle false) (some "n")) true

/-- An element checked before connection, then connected inside a form (so
its captured default is checked). -/
def resetExample : ToggleState := connect (setCheckedProp (mkToggle true) true) true

@[simp] lemma getAttr_checked (s : ToggleState) : getAttr s .checked = s.attrs.checked := rfl

@[simp] lemma getAttr_disabled (s : ToggleState) : getAttr s .disabled = s.attrs.disabled := rfl

@[simp] lemma getAttr_name (s : ToggleState) : getAttr s .name = s.attrs.name := rfl

@[simp] lemma getAttr_value (s : ToggleState) : getAttr s .value = s.attrs.value := rfl

@[simp] lemma getAttr_required (s : ToggleState) : getAttr s .required = s.attrs.required := rfl

@[simp] lemma getAttr_indeterminate (s : ToggleState) :
    getAttr s .indeterminate = s.attrs.indeterminate := rfl

@[simp] lemma getAttr_ariaLabel (s : ToggleState) : getAttr s .ariaLabel = s.attrs.ariaLabel := rfl

lemma getAttr_of_attrs_eq {s t : ToggleState} (h : t.attrs = s.attrs) (a : AttrName) :
    getAttr t a = getAttr s a := by
  cases a <;> simp [h]

lemma setAttrRaw_getAttr (s : ToggleState) (a : AttrName) (v : Option String) (b : AttrName) :
    getAttr (setAttrRaw s a v) b = if b = a then v else getAttr s b := by
  cases a <;> cases b <;> simp [setAttrRaw]

@[simp] lemma setAttrRaw_native (s : ToggleState) (a : AttrName) (v : Option String) :
    (setAttrRaw s a v).native = s.native := by
  cases a <;> rfl

@[simp] lemma setAttrRaw_internals (s : ToggleState) (a : AttrName) (v : Option String) :
    (setAttrRaw s a v).internals = s.internals := by
  cases a <;> rfl

@[simp] lemma setAttrRaw_hiddenInput (s : ToggleState) (a : AttrName) (v : Option String) :
    (setAttrRaw s a v).hiddenInput = s.hiddenInput := by
  cases a <;> rfl

@[simp] lemma setAttrRaw_customValidity (s : ToggleState) (a : AttrName) (v : Option String) :
    (setAttrRaw s a v).customValidity = s.customValidity := by
  cases a <;> rfl

@[simp] lemma setAttrRaw_defaultChecked (s : ToggleState) (a : AttrName) (v : Option String) :
    (setAttrRaw s a v).defaultChecked = s.defaultChecked := by
  cases a <;> rfl

@[simp] lemma setAttrRaw_defaultIndeterminate (s : ToggleState) (a : AttrName) (v : Option String) :
    (setAttrRaw s a v).defaultIndeterminate = s.defaultIndeterminate := by
  cases a <;> rfl

@[simp] lemma setAttrRaw_isConnected (s : ToggleState) (a : AttrName) (v : Option String) :
    (setAttrRaw s a v).isConnected = s.isConnected := by
  cases a <;> rfl

@[simp] lemma setAttrRaw_inForm (s : ToggleState) (a : AttrName) (v : Option String) :
    (setAttrRaw s a v).inForm = s.inForm := by
  cases a <;> rfl

@[simp] lemma setAttrRaw_ariaInvalid (s : ToggleState) (a : AttrName) (v : Option String) :
    (setAttrRaw s a v).ariaInvalid = s.ariaInvalid := by
  cases a <;> rfl

lemma updateHiddenCore_eq (s : ToggleState) :
    updateHiddenCore s = { s with hiddenInput := hiddenAfterCore s } := by
  obtain ⟨na, at', ai, it, hi, cv, dc, di, ic, fo⟩ := s
  cases hi
  · rfl
  · dsimp only [updateHiddenCore, hiddenAfterCore, coreWrite]
    split <;> rfl

lemma ensureHiddenInput_eq (s : ToggleState) :
    ensureHiddenInput s = { s with hiddenInput := ensureHidden s } := by
  obtain ⟨na, at', ai, it, hi, cv, dc, di, ic, fo⟩ := s
  unfold ensureHiddenInput ensureHidden
  cases ic <;> cases fo <;> cases hi <;> cases it <;>
    simp [updateHiddenCore_eq, hiddenAfterCore, coreWrite, nameTruthy] <;>
    split <;> simp [valueProp]

lemma updateHiddenInput_eq (s : ToggleState) :
    updateHiddenInput s = { s with hiddenInput := hiddenAfterUpd s } := by
  obtain ⟨na, at', ai, it, hi, cv, dc, di, ic, fo⟩ := s
  unfold updateHiddenInput hiddenAfterUpd
  cases hi
  · rw [ensureHiddenInput_eq]
    simp only [Option.isSome_none, Bool.false_eq_true, if_false]
    cases he : ensureHidden
        { native := na, attrs := at', ariaInvalid := ai, internals := it, hiddenInput := none,
          customValidity := cv, defaultChecked := dc, defaultIndeterminate := di,
          isConnected := ic, inForm := fo } <;>
      simp [he, updateHiddenCore_eq, hiddenAfterCore, coreWrite, valueProp]
  · simp [updateHiddenCore_eq, hiddenAfterCore]

lemma updateFormValue_eq (s : ToggleState) :
    updateFormValue s =
      { s with internals := internalsAfterFV s, hiddenInput := hiddenAfterFV s } := by
  obtain ⟨na, at', ai, it, hi, cv, dc, di, ic, fo⟩ := s
  unfold updateFormValue internalsAfterFV hiddenAfterFV formValueOf
  cases it
  · rw [updateHiddenInput_eq]
    simp
  · simp only [Option.map_some]
    split <;> simp_all

lemma updateValidity_eq (s : ToggleState) :
    updateValidity s =
      { s with internals := internalsAfterUV s, ariaInvalid := ariaAfterUV s } := by
  obtain ⟨na, at', ai, it, hi, cv, dc, di, ic, fo⟩ := s
  unfold updateValidity internalsAfterUV ariaAfterUV validityNow
  cases it <;> simp

/-! ### Frame lemmas -/

@[simp] lemma updateHiddenInput_native (s : ToggleState) :
    (updateHiddenInput s).native = s.native := by rw [updateHiddenInput_eq]

@[simp] lemma updateHiddenInput_attrs (s : ToggleState) :
    (updateHiddenInput s).attrs = s.attrs := by rw [updateHiddenInput_eq]

@[simp] lemma updateHiddenInput_internals (s : ToggleState) :
    (updateHiddenInput s).internals = s.internals := by rw [updateHiddenInput_eq]

@[simp] lemma updateHiddenInput_ariaInvalid (s : ToggleState) :
    (updateHiddenInput s).ariaInvalid = s.ariaInvalid := by rw [updateHiddenInput_eq]

@[simp] lemma updateHiddenInput_customValidity (s : ToggleState) :
    (updateHiddenInput s).customValidity = s.customValidity := by rw [updateHiddenInput_eq]

@[simp] lemma updateHiddenInput_defaultChecked (s : ToggleState) :
    (updateHiddenInput s).defaultChecked = s.defaultChecked := by rw [updateHiddenInput_eq]

@[simp] lemma updateHiddenInput_defaultIndeterminate (s : ToggleState) :
    (updateHiddenInput s).defaultIndeterminate = s.defaultIndeterminate := by
  rw [updateHiddenInput_eq]

@[simp] lemma updateHiddenInput_isConnected (s : ToggleState) :
    (updateHiddenInput s).isConnected = s.isConnected := by rw [updateHiddenInput_eq]

@[simp] lemma updateHiddenInput_inForm (s : ToggleState) :
    (updateHiddenInput s).inForm = s.inForm := by rw [updateHiddenInput_eq]

@[simp] lemma ensureHiddenInput_native (s : ToggleState) :
    (ensureHiddenInput s).native = s.native := by rw [ensureHiddenInput_eq]

@[simp] lemma ensureHiddenInput_attrs (s : ToggleState) :
    (ensureHiddenInput s).attrs = s.attrs := by rw [ensureHiddenInput_eq]

@[simp] lemma ensureHiddenInput_internals (s : ToggleState) :
    (ensureHiddenInput s).internals = s.internals := by rw [ensureHiddenInput_eq]

@[simp] lemma ensureHiddenInput_ariaInvalid (s : ToggleState) :
    (ensureHiddenInput s).ariaInvalid = s.ariaInvalid := by rw [ensureHiddenInput_eq]

@[simp] lemma ensureHiddenInput_customValidity (s : ToggleState) :
    (ensureHiddenInput s).customValidity = s.customValidity := by rw [ensureHiddenInput_eq]

@[simp] lemma ensureHiddenInput_defaultChecked (s : ToggleState) :
    (ensureHiddenInput s).defaultChecked = s.defaultChecked := by rw [ensureHiddenInput_eq]

@[simp] lemma ensureHiddenInput_defaultIndeterminate (s : ToggleState) :
    (ensureHiddenInput s).defaultIndeterminate = s.defaultIndeterminate := by
  rw [ensureHiddenInput_eq]

@[simp] lemma updateFormValue_native (s : ToggleState) :
    (updateFormValue s).native = s.native := by rw [updateFormValue_eq]

@[simp] lemma updateFormValue_attrs (s : ToggleState) :
    (updateFormValue s).attrs = s.attrs := by rw [updateFormValue_eq]

@[simp] lemma updateFormValue_ariaInvalid (s : ToggleState) :
    (updateFormValue s).ariaInvalid = s.ariaInvalid := by rw [updateFormValue_eq]

@[simp] lemma updateFormValue_customValidity (s : ToggleState) :
    (updateFormValue s).customValidity = s.customValidity := by rw [updateFormValue_eq]

@[simp] lemma updateFormValue_defaultChecked (s : ToggleState) :
    (updateFormValue s).defaultChecked = s.defaultChecked := by rw [updateFormValue_eq]

@[simp] lemma updateFormValue_defaultIndeterminate (s : ToggleState) :
    (updateFormValue s).defaultIndeterminate = s.defaultIndeterminate := by
  rw [updateFormValue_eq]

@[simp] lemma updateFormValue_isConnected (s : ToggleState) :
    (updateFormValue s).isConnected = s.isConnected := by rw [updateFormValue_eq]

@[simp] lemma updateFormValue_inForm (s : ToggleState) :
    (updateFormValue s).inForm = s.inForm := by rw [updateFormValue_eq]

@[simp] lemma updateFormValue_internals (s : ToggleState) :
    (updateFormValue s).internals = internalsAfterFV s := by rw [updateFormValue_eq]

@[simp] lemma updateValidity_native (s : ToggleState) :
    (updateValidity s).native = s.native := by rw [updateValidity_eq]

@[simp] lemma updateValidity_attrs (s : ToggleState) :
    (updateValidity s).attrs = s.attrs := by rw [updateValidity_eq]

@[simp] lemma updateValidity_hiddenInput (s : ToggleState) :
    (updateValidity s).hiddenInput = s.hiddenInput := by rw [updateValidity_eq]

@[simp] lemma updateValidity_customValidity (s : ToggleState) :
    (updateValidity s).customValidity = s.customValidity := by rw [updateValidity_eq]

@[simp] lemma updateValidity_defaultChecked (s : ToggleState) :
    (updateValidity s).defaultChecked = s.defaultChecked := by rw [updateValidity_eq]

@[simp] lemma updateValidity_defaultIndeterminate (s : ToggleState) :
    (updateValidity s).defaultIndeterminate = s.defaultIndeterminate := by
  rw [updateValidity_eq]

@[simp] lemma updateValidity_isConnected (s : ToggleState) :
    (updateValidity s).isConnected = s.isConnected := by rw [updateValidity_eq]

@[simp] lemma updateValidity_inForm (s : ToggleState) :
    (updateValidity s).inForm = s.inForm := by rw [updateValidity_eq]

@[simp] lemma updateValidity_internals (s : ToggleState) :
    (updateValidity s).internals = internalsAfterUV s := by rw [updateValidity_eq]

@[simp] lemma refreshAll_native (s : ToggleState) : (refreshAll s).native = s.native := by
  simp [refreshAll]

@[simp] lemma refreshAll_attrs (s : ToggleState) : (refreshAll s).attrs = s.attrs := by
  simp [refreshAll]

@[simp] lemma refreshAll_customValidity (s : ToggleState) :
    (refreshAll s).customValidity = s.customValidity := by simp [refreshAll]

@[simp] lemma refreshAll_defaultChecked (s : ToggleState) :
    (refreshAll s).defaultChecked = s.defaultChecked := by simp [refreshAll]

@[simp] lemma refreshAll_defaultIndeterminate (s : ToggleState) :
    (refreshAll s).defaultIndeterminate = s.defaultIndeterminate := by simp [refreshAll]

lemma attrCC_attrs (s : ToggleState) (a : AttrName) (o n : Option String) :
    (attrChangedCallback s a o n).attrs = s.attrs := by
  unfold attrChangedCallback
  split
  · rfl
  · cases a <;> simp

lemma attrCC_customValidity (s : ToggleState) (a : AttrName) (o n : Option String) :
    (attrChangedCallback s a o n).customValidity = s.customValidity := by
  unfold attrChangedCallback
  split
  · rfl
  · cases a <;> simp

lemma attrCC_defaultChecked (s : ToggleState) (a : AttrName) (o n : Option String) :
    (attrChangedCallback s a o n).defaultChecked = s.defaultChecked := by
  unfold attrChangedCallback
  split
  · rfl
  · cases a <;> simp

lemma attrCC_defaultIndeterminate (s : ToggleState) (a : AttrName) (o n : Option String) :
    (attrChangedCallback s a o n).defaultIndeterminate = s.defaultIndeterminate := by
  unfold attrChangedCallback
  split
  · rfl
  · cases a <;> simp

lemma attrCC_native_checked_ne (s : ToggleState) {a : AttrName} (o n : Option String)
    (ha : a ≠ AttrName.checked) :
    (attrChangedCallback s a o n).native.checked = s.native.checked := by
  unfold attrChangedCallback
  split
  · rfl
  · cases a <;> simp_all

lemma attrCC_checked_native (s : ToggleState) (o n : Option String) :
    (attrChangedCallback s .checked o n).native.checked =
      if o = n then s.native.checked else hasAttr s .checked := by
  unfold attrChangedCallback
  split <;> simp_all

/-! ### The checked attribute / property invariant (C1) -/

lemma attrCC_eq (s : ToggleState) (a : AttrName) (o n : Option String) :
    attrChangedCallback s a o n = if o = n then s else attrReact (attrSync s a) a := rfl

lemma checkedInv_congr {s t : ToggleState} (hn : t.native.checked = s.native.checked)
    (ha : t.attrs = s.attrs) (h : CheckedInv s) : CheckedInv t := by
  unfold CheckedInv at *
  rw [hn, hasAttr, getAttr_of_attrs_eq ha]
  exact h

lemma setAttribute_getAttr (s : ToggleState) (a : AttrName) (v : String) (b : AttrName) :
    getAttr (setAttribute s a v) b = if b = a then some v else getAttr s b := by
  unfold setAttribute
  rw [getAttr_of_attrs_eq (attrCC_attrs _ _ _ _), setAttrRaw_getAttr]

lemma removeAttribute_getAttr (s : ToggleState) (a : AttrName) (b : AttrName) :
    getAttr (removeAttribute s a) b = if b = a then none else getAttr s b := by
  cases ho : getAttr s a
  · simp only [removeAttribute, ho]
    split
    · rename_i hba
      subst hba
      exact ho
    · rfl
  · simp only [removeAttribute, ho]
    rw [getAttr_of_attrs_eq (attrCC_attrs _ _ _ _), setAttrRaw_getAttr]

lemma setAttribute_native_checked (s : ToggleState) (v : String) :
    (setAttribute s .checked v).native.checked =
      if getAttr s .checked = some v then s.native.checked else true := by
  unfold setAttribute
  rw [attrCC_checked_native, setAttrRaw_native]
  rfl

lemma removeAttribute_native_checked (s : ToggleState) :
    (removeAttribute s .checked).native.checked =
      if getAttr s .checked = none then s.native.checked else false := by
  cases ho : getAttr s .checked
  · simp [removeAttribute, ho]
  · simp only [removeAttribute, ho]
    rw [attrCC_checked_native]
    simp [hasAttr, setAttrRaw]

lemma setAttribute_native_checked_ne (s : ToggleState) {a : AttrName} (v : String)
    (ha : a ≠ AttrName.checked) :
    (setAttribute s a v).native.checked = s.native.checked := by
  unfold setAttribute
  rw [attrCC_native_checked_ne _ _ _ ha, setAttrRaw_native]

lemma removeAttribute_native_checked_ne (s : ToggleState) {a : AttrName}
    (ha : a ≠ AttrName.checked) :
    (removeAttribute s a).native.checked = s.native.checked := by
  cases ho : getAttr s a
  · simp [removeAttribute, ho]
  · simp only [removeAttribute, ho]
    rw [attrCC_native_checked_ne _ _ _ ha, setAttrRaw_native]

lemma checkedInv_setAttribute {s : ToggleState} (h : CheckedInv s) (a : AttrName) (v : String) :
    CheckedInv (setAttribute s a v) := by
  by_cases ha : a = AttrName.checked
  · subst ha
    unfold CheckedInv
    rw [setAttribute_native_checked, hasAttr, setAttribute_getAttr, if_pos rfl]
    split
    · rename_i he
      unfold CheckedInv hasAttr at h
      rw [h, he]
    · simp
  · unfold CheckedInv
    rw [setAttribute_native_checked_ne _ _ ha, hasAttr, setAttribute_getAttr,
      if_neg (fun hh => ha hh.symm)]
    exact h

lemma checkedInv_removeAttribute {s : ToggleState} (h : CheckedInv s) (a : AttrName) :
    CheckedInv (removeAttribute s a) := by
  by_cases ha : a = AttrName.checked
  · subst ha
    unfold CheckedInv
    rw [removeAttribute_native_checked, hasAttr, removeAttribute_getAttr, if_pos rfl]
    split
    · rename_i he
      unfold CheckedInv hasAttr at h
      rw [h, he]
    · simp
  · unfold CheckedInv
    rw [removeAttribute_native_checked_ne _ ha, hasAttr, removeAttribute_getAttr,
      if_neg (fun hh => ha hh.symm)]
    exact h

lemma checkedInv_syncCheckedAttr (s : ToggleState) : CheckedInv (syncCheckedAttr s) := by
  unfold syncCheckedAttr
  cases hc : s.native.checked
  · rw [if_neg (by simp)]
    unfold CheckedInv
    rw [removeAttribute_native_checked, hasAttr, removeAttribute_getAttr, if_pos rfl]
    split <;> simp [hc]
  · rw [if_pos rfl]
    unfold CheckedInv
    rw [setAttribute_native_checked, hasAttr, setAttribute_getAttr, if_pos rfl]
    split <;> simp [hc]

lemma checkedInv_refreshAll {s : ToggleState} (h : CheckedInv s) : CheckedInv (refreshAll s) :=
  checkedInv_congr (by simp) (by simp) h

lemma checkedInv_onNativeInput (s : ToggleState) : CheckedInv (onNativeInput s).1 := by
  unfold onNativeInput
  exact checkedInv_refreshAll (checkedInv_syncCheckedAttr _)

lemma checkedInv_onNativeChange (s : ToggleState) : CheckedInv (onNativeChange s).1 := by
  unfold onNativeChange
  exact checkedInv_refreshAll (checkedInv_syncCheckedAttr _)

lemma checkedInv_nativeClick (s : ToggleState) : CheckedInv (nativeClick s).1 := by
  unfold nativeClick
  exact checkedInv_onNativeChange _

lemma checkValidityRun_fst (s : ToggleState) : (checkValidityRun s).1 = updateValidity s := by
  unfold checkValidityRun
  cases h : internalsAfterUV s <;> simp [h]

lemma setCustomValidity_native (s : ToggleState) (m : String) :
    (setCustomValidity s m).native = s.native := by
  unfold setCustomValidity
  cases h : ({ s with customValidity := m } : ToggleState).internals
  · simp [h]
  · simp only [h]
    split
    · rfl
    · simp

lemma setCustomValidity_attrs (s : ToggleState) (m : String) :
    (setCustomValidity s m).attrs = s.attrs := by
  unfold setCustomValidity
  cases h : ({ s with customValidity := m } : ToggleState).internals
  · simp [h]
  · simp only [h]
    split
    · rfl
    · simp

lemma connect_native (s : ToggleState) (f : Bool) : (connect s f).native = s.native := by
  unfold connect connectedCallback
  simp

lemma connect_attrs (s : ToggleState) (f : Bool) : (connect s f).attrs = s.attrs := by
  unfold connect connectedCallback
  simp

/-! ### Form-value consistency (C3) -/

lemma setAttrRaw_self {s : ToggleState} {a : AttrName} {v : Option String}
    (h : getAttr s a = v) : setAttrRaw s a v = s := by
  cases a <;>
    simp only [getAttr_checked, getAttr_disabled, getAttr_name, getAttr_value,
      getAttr_required, getAttr_indeterminate, getAttr_ariaLabel] at h <;>
    subst h <;> rfl

lemma internalsOk_congr {s t : ToggleState}
    (hI : t.internals.map (fun i => i.formValue) = s.internals.map (fun i => i.formValue))
    (hc : t.native.checked = s.native.checked) (hv : t.attrs.value = s.attrs.value) :
    internalsOk t = internalsOk s := by
  unfold internalsOk formValueOf valueProp
  cases ht : t.internals <;> cases hs : s.internals <;> simp_all

lemma hiddenOk_congr {s t : ToggleState} (hH : t.hiddenInput = s.hiddenInput)
    (hc : t.native.checked = s.native.checked) (hn : t.attrs.name = s.attrs.name)
    (hv : t.attrs.value = s.attrs.value) : hiddenOk t = hiddenOk s := by
  unfold hiddenOk valueProp
  simp only [getAttr_name, getAttr_value, hH, hc, hn, hv]

lemma formOk_congr {s t : ToggleState}
    (hI : t.internals.map (fun i => i.formValue) = s.internals.map (fun i => i.formValue))
    (hH : t.hiddenInput = s.hiddenInput) (hc : t.native.checked = s.native.checked)
    (hn : t.attrs.name = s.attrs.name) (hv : t.attrs.value = s.attrs.value) :
    formOk t = formOk s := by
  unfold formOk
  rw [internalsOk_congr hI hc hv, hiddenOk_congr hH hc hn hv]

lemma hiddenOk_mk_core (s : ToggleState) :
    hiddenOk { s with hiddenInput := some (coreWrite s) } = true := by
  unfold coreWrite
  cases hc : s.native.checked <;> simp [hiddenOk, hc, valueProp]

lemma hiddenOk_mk_none (s : ToggleState) :
    hiddenOk { s with hiddenInput := none } = true := rfl

lemma hiddenAfterUpd_cases (s : ToggleState) :
    hiddenAfterUpd s = none ∨ hiddenAfterUpd s = some (coreWrite s) := by
  unfold hiddenAfterUpd
  split
  · right
    rfl
  · cases h : ensureHidden s <;> simp

lemma ensureHidden_cases (s : ToggleState) :
    ensureHidden s = s.hiddenInput ∨ ensureHidden s = none ∨
      ensureHidden s = some (coreWrite s) := by
  unfold ensureHidden
  split
  · left
    rfl
  · split
    · right
      left
      rfl
    · split
      · right
        right
        rfl
      · left
        rfl

lemma hiddenOk_updateHiddenInput (s : ToggleState) :
    hiddenOk (updateHiddenInput s) = true := by
  rw [updateHiddenInput_eq]
  rcases hiddenAfterUpd_cases s with h | h <;> rw [h]
  · exact hiddenOk_mk_none s
  · exact hiddenOk_mk_core s

lemma internalsOk_updateFormValue (s : ToggleState) :
    internalsOk (updateFormValue s) = true := by
  rw [updateFormValue_eq]
  unfold internalsOk internalsAfterFV
  cases h : s.internals <;> simp [formValueOf, valueProp]

lemma hiddenOk_updateFormValue (s : ToggleState) (h : hiddenOk s = true) :
    hiddenOk (updateFormValue s) = true := by
  rw [updateFormValue_eq]
  unfold hiddenAfterFV
  cases hi : s.internals
  · rcases hiddenAfterUpd_cases s with hu | hu <;> simp only [hu]
    · exact hiddenOk_mk_none s
    · exact hiddenOk_mk_core s
  · rw [hiddenOk_congr rfl rfl rfl rfl]
    exact h

lemma internalsOk_updateValidity (s : ToggleState) :
    internalsOk (updateValidity s) = internalsOk s := by
  rw [updateValidity_eq]
  refine internalsOk_congr ?_ rfl rfl
  unfold internalsAfterUV
  cases s.internals <;> simp

lemma hiddenOk_updateValidity (s : ToggleState) :
    hiddenOk (updateValidity s) = hiddenOk s := by
  rw [updateValidity_eq]
  exact hiddenOk_congr rfl rfl rfl rfl

lemma formOk_updateValidity (s : ToggleState) : formOk (updateValidity s) = formOk s := by
  unfold formOk
  rw [internalsOk_updateValidity, hiddenOk_updateValidity]

lemma formOk_update2 (s : ToggleState) :
    formOk (updateFormValue (updateHiddenInput s)) = true := by
  unfold formOk
  rw [internalsOk_updateFormValue,
    hiddenOk_updateFormValue _ (hiddenOk_updateHiddenInput s)]
  rfl

lemma formOk_refreshAll (s : ToggleState) : formOk (refreshAll s) = true := by
  unfold refreshAll
  rw [formOk_updateValidity]
  exact formOk_update2 s

lemma formOk_ensure {s : ToggleState} (h : formOk s = true) :
    formOk (ensureHiddenInput s) = true := by
  rw [ensureHiddenInput_eq]
  have hI : internalsOk { s with hiddenInput := ensureHidden s } = internalsOk s :=
    internalsOk_congr rfl rfl rfl
  rcases ensureHidden_cases s with he | he | he <;> rw [he] at hI ⊢
  · unfold formOk at h ⊢
    rw [hI, hiddenOk_congr rfl rfl rfl rfl]
    exact h
  · unfold formOk at h ⊢
    rw [hI, hiddenOk_mk_none]
    rw [Bool.and_eq_true] at h
    simp [h.1]
  · unfold formOk at h ⊢
    rw [hI, hiddenOk_mk_core]
    rw [Bool.and_eq_true] at h
    simp [h.1]

lemma formOk_attrReact_touched (s : ToggleState) {a : AttrName}
    (ha : a = AttrName.name ∨ a = AttrName.value ∨ a = AttrName.checked ∨
      a = AttrName.indeterminate) :
    formOk (attrReact s a) = true := by
  unfold attrReact
  rw [if_pos ha]
  split
  · rw [formOk_updateValidity]
    exact formOk_update2 s
  · exact formOk_update2 s

lemma formOk_attrReact_other (s : ToggleState) {a : AttrName}
    (ha : ¬(a = AttrName.name ∨ a = AttrName.value ∨ a = AttrName.checked ∨
      a = AttrName.indeterminate)) (h : formOk s = true) :
    formOk (attrReact s a) = true := by
  unfold attrReact
  rw [if_neg ha]
  split
  · rw [formOk_updateValidity]
    exact h
  · exact h

lemma formOk_setAttribute {s : ToggleState} (h : formOk s = true) (a : AttrName) (v : String) :
    formOk (setAttribute s a v) = true := by
  unfold setAttribute
  rw [attrCC_eq]
  by_cases he : getAttr s a = some v
  · rw [if_pos he, setAttrRaw_self he]
    exact h
  · rw [if_neg he]
    cases a
    · exact formOk_attrReact_touched _ (by simp)
    · refine formOk_attrReact_other _ (by simp) ?_
      rw [formOk_congr rfl rfl rfl rfl rfl]
      exact h
    · exact formOk_attrReact_touched _ (by simp)
    · exact formOk_attrReact_touched _ (by simp)
    · refine formOk_attrReact_other _ (by simp) ?_
      rw [formOk_congr rfl rfl rfl rfl rfl]
      exact h
    · exact formOk_attrReact_touched _ (by simp)
    · refine formOk_attrReact_other _ (by simp) ?_
      rw [formOk_congr rfl rfl rfl rfl rfl]
      exact h

lemma formOk_removeAttribute {s : ToggleState} (h : formOk s = true) (a : AttrName) :
    formOk (removeAttribute s a) = true := by
  cases ho : getAttr s a
  · simp only [removeAttribute, ho]
    exact h
  · simp only [removeAttribute, ho]
    rw [attrCC_eq, if_neg (by simp)]
    cases a
    · exact formOk_attrReact_touched _ (by simp)
    · refine formOk_attrReact_other _ (by simp) ?_
      rw [formOk_congr rfl rfl rfl rfl rfl]
      exact h
    · exact formOk_attrReact_touched _ (by simp)
    · exact formOk_attrReact_touched _ (by simp)
    · refine formOk_attrReact_other _ (by simp) ?_
      rw [formOk_congr rfl rfl rfl rfl rfl]
      exact h
    · exact formOk_attrReact_touched _ (by simp)
    · refine formOk_attrReact_other _ (by simp) ?_
      rw [formOk_congr rfl rfl rfl rfl rfl]
      exact h

lemma formOk_setCustomValidity (s : ToggleState) (m : String) :
    formOk (setCustomValidity s m) = formOk s := by
  obtain ⟨na, at', ai, it, hi, cv, dc, di, ic, fo⟩ := s
  unfold setCustomValidity
  cases it
  · dsimp only
    rw [formOk_updateValidity]
    exact formOk_congr rfl rfl rfl rfl rfl
  · dsimp only
    split
    · exact formOk_congr rfl rfl rfl rfl rfl
    · rw [formOk_updateValidity]
      exact formOk_congr rfl rfl rfl rfl rfl

/-! ### Validity reporting (C7) -/

@[simp] lemma updateValidity_ariaInvalid (s : ToggleState) :
    (updateValidity s).ariaInvalid = ariaAfterUV s := by rw [updateValidity_eq]

lemma checkValidityRun_snd (s : ToggleState) :
    (checkValidityRun s).2 =
      (!(requiredProp s && !s.native.checked) && (s.customValidity == "")) := by
  obtain ⟨na, at', ai, it, hi, cv, dc, di, ic, fo⟩ := s
  unfold checkValidityRun updateValidity
  cases it
  · dsimp only
    rfl
  · dsimp only
    simp [Validity.valid, requiredProp, hasAttr, bne]

/-! ### Reset and default capture (C8) -/

lemma onFormReset_eq (s : ToggleState) :
    onFormReset s =
      refreshAll (setIndeterminateProp (setCheckedProp s s.defaultChecked)
        s.defaultIndeterminate) := rfl

lemma setCheckedProp_hasAttr_checked (s : ToggleState) (b : Bool) :
    hasAttr (setCheckedProp s b) .checked = b := by
  unfold setCheckedProp
  split
  · rename_i hb
    rw [hasAttr, setAttribute_getAttr, if_pos rfl]
    simp [hb]
  · rename_i hb
    rw [hasAttr, removeAttribute_getAttr, if_pos rfl]
    simp at hb
    simp [hb]

lemma setIndeterminateProp_hasAttr_indet (s : ToggleState) (b : Bool) :
    hasAttr (setIndeterminateProp s b) .indeterminate = b := by
  unfold setIndeterminateProp
  split
  · rename_i hb
    rw [hasAttr, setAttribute_getAttr, if_pos rfl]
    simp [hb]
  · rename_i hb
    rw [hasAttr, removeAttribute_getAttr, if_pos rfl]
    simp at hb
    simp [hb]

lemma setCheckedProp_native_checked {s : ToggleState} (h : CheckedInv s) (b : Bool) :
    (setCheckedProp s b).native.checked = b := by
  unfold setCheckedProp
  split
  · rename_i hb
    rw [setAttribute_native_checked]
    split
    · rename_i he
      unfold CheckedInv hasAttr at h
      rw [h, he]
      simp [hb]
    · simp [hb]
  · rename_i hb
    simp at hb
    rw [removeAttribute_native_checked]
    split
    · rename_i he
      unfold CheckedInv hasAttr at h
      rw [h, he]
      simp [hb]
    · simp [hb]

lemma setIndeterminateProp_getAttr_ne (s : ToggleState) (b : Bool) {a : AttrName}
    (ha : a ≠ AttrName.indeterminate) :
    getAttr (setIndeterminateProp s b) a = getAttr s a := by
  unfold setIndeterminateProp
  split
  · rw [setAttribute_getAttr, if_neg ha]
  · rw [removeAttribute_getAttr, if_neg ha]

lemma setCheckedProp_getAttr_ne (s : ToggleState) (b : Bool) {a : AttrName}
    (ha : a ≠ AttrName.checked) :
    getAttr (setCheckedProp s b) a = getAttr s a := by
  unfold setCheckedProp
  split
  · rw [setAttribute_getAttr, if_neg ha]
  · rw [removeAttribute_getAttr, if_neg ha]

lemma setIndeterminateProp_native_checked (s : ToggleState) (b : Bool) :
    (setIndeterminateProp s b).native.checked = s.native.checked := by
  unfold setIndeterminateProp
  split
  · exact setAttribute_native_checked_ne _ _ (by simp)
  · exact removeAttribute_native_checked_ne _ (by simp)

lemma attrSync_internals (s : ToggleState) (a : AttrName) :
    (attrSync s a).internals = s.internals := by
  cases a <;> rfl

lemma attrSync_customValidity (s : ToggleState) (a : AttrName) :
    (attrSync s a).customValidity = s.customValidity := by
  cases a <;> rfl

lemma attrReact_internals_isSome (s : ToggleState) (a : AttrName) :
    (attrReact s a).internals.isSome = s.internals.isSome := by
  unfold attrReact
  split <;> split <;>
    simp [internalsAfterUV, internalsAfterFV, Option.isSome_map]

lemma attrReact_customValidity (s : ToggleState) (a : AttrName) :
    (attrReact s a).customValidity = s.customValidity := by
  unfold attrReact
  split <;> split <;> simp

lemma setAttribute_internals_isSome (s : ToggleState) (a : AttrName) (v : String) :
    (setAttribute s a v).internals.isSome = s.internals.isSome := by
  unfold setAttribute
  rw [attrCC_eq]
  split
  · rw [setAttrRaw_internals]
  · rw [attrReact_internals_isSome, attrSync_internals, setAttrRaw_internals]

lemma removeAttribute_internals_isSome (s : ToggleState) (a : AttrName) :
    (removeAttribute s a).internals.isSome = s.internals.isSome := by
  cases ho : getAttr s a
  · simp only [removeAttribute, ho]
  · simp only [removeAttribute, ho]
    rw [attrCC_eq]
    split
    · rw [setAttrRaw_internals]
    · rw [attrReact_internals_isSome, attrSync_internals, setAttrRaw_internals]

lemma setAttribute_customValidity (s : ToggleState) (a : AttrName) (v : String) :
    (setAttribute s a v).customValidity = s.customValidity := by
  unfold setAttribute
  rw [attrCC_eq]
  split
  · rw [setAttrRaw_customValidity]
  · rw [attrReact_customValidity, attrSync_customValidity, setAttrRaw_customValidity]

lemma removeAttribute_customValidity (s : ToggleState) (a : AttrName) :
    (removeAttribute s a).customValidity = s.customValidity := by
  cases ho : getAttr s a
  · simp only [removeAttribute, ho]
  · simp only [removeAttribute, ho]
    rw [attrCC_eq]
    split
    · rw [setAttrRaw_customValidity]
    · rw [attrReact_customValidity, attrSync_customValidity, setAttrRaw_customValidity]

lemma setCheckedProp_internals_isSome (s : ToggleState) (b : Bool) :
    (setCheckedProp s b).internals.isSome = s.internals.isSome := by
  unfold setCheckedProp
  split
  · rw [setAttribute_internals_isSome]
  · rw [removeAttribute_internals_isSome]

lemma setIndeterminateProp_internals_isSome (s : ToggleState) (b : Bool) :
    (setIndeterminateProp s b).internals.isSome = s.internals.isSome := by
  unfold setIndeterminateProp
  split
  · rw [setAttribute_internals_isSome]
  · rw [removeAttribute_internals_isSome]

lemma setCheckedProp_customValidity (s : ToggleState) (b : Bool) :
    (setCheckedProp s b).customValidity = s.customValidity := by
  unfold setCheckedProp
  split
  · rw [setAttribute_customValidity]
  · rw [removeAttribute_customValidity]

lemma setIndeterminateProp_customValidity (s : ToggleState) (b : Bool) :
    (setIndeterminateProp s b).customValidity = s.customValidity := by
  unfold setIndeterminateProp
  split
  · rw [setAttribute_customValidity]
  · rw [removeAttribute_customValidity]

lemma refreshAll_internals (s : ToggleState) :
    (refreshAll s).internals =
      s.internals.map (fun i =>
        { i with formValue := formValueOf s, validity := validityNow s }) := by
  unfold refreshAll
  rw [updateValidity_internals]
  unfold internalsAfterUV
  rw [updateFormValue_internals]
  unfold internalsAfterFV
  rw [updateHiddenInput_eq]
  cases s.internals <;>
    simp [validityNow, formValueOf, valueProp, requiredProp, hasAttr]

lemma refreshAll_ariaInvalid_none {s : ToggleState} (h : s.internals = none) :
    (refreshAll s).ariaInvalid =
      ((requiredProp s && !s.native.checked) || (s.customValidity != "")) := by
  unfold refreshAll
  rw [updateValidity_ariaInvalid]
  unfold ariaAfterUV
  rw [updateFormValue_internals]
  unfold internalsAfterFV
  rw [updateHiddenInput_eq]
  rw [h]
  simp [validityNow, requiredProp, hasAttr]

lemma formOk_updateFormValue {s : ToggleState} (h : formOk s = true) :
    formOk (updateFormValue s) = true := by
  unfold formOk at h ⊢
  rw [Bool.and_eq_true] at h
  rw [internalsOk_updateFormValue, hiddenOk_updateFormValue _ h.2]
  rfl

lemma formOk_nativeClick (s : ToggleState) : formOk (nativeClick s).1 = true := by
  unfold nativeClick onNativeChange
  exact formOk_refreshAll _

/-! ### Claim theorems -/

/-- C1: for every `ToggleInput` state in which the `checked` property agrees
with the `checked` attribute, every public operation — checked setter,
attribute change (checked, disabled or any other observed attribute), user
click, Space/Enter keydown, `toggle()`, form reset, and the remaining public
entry points — preserves that agreement: the `checked` property read from
the internal native checkbox equals the presence of the `checked` attribute
on the host element. -/
theorem checked_property_attribute_sync (s : ToggleState) (o : Op) (h : CheckedInv s) :
    CheckedInv (applyOp o s).1 := by
  cases o with
  | setChecked b =>
    dsimp only [applyOp]
    unfold setCheckedProp
    split
    · exact checkedInv_setAttribute h _ _
    · exact checkedInv_removeAttribute h _
  | setDisabled b =>
    dsimp only [applyOp]
    unfold setDisabledProp
    split
    · exact checkedInv_setAttribute h _ _
    · exact checkedInv_removeAttribute h _
  | setIndeterminate b =>
    dsimp only [applyOp]
    unfold setIndeterminateProp
    split
    · exact checkedInv_setAttribute h _ _
    · exact checkedInv_removeAttribute h _
  | setRequired b =>
    dsimp only [applyOp]
    unfold setRequiredProp
    split
    · exact checkedInv_setAttribute h _ _
    · exact checkedInv_removeAttribute h _
  | setName v =>
    dsimp only [applyOp]
    unfold setNameProp
    cases v
    · exact checkedInv_removeAttribute h _
    · exact checkedInv_setAttribute h _ _
  | setValue v =>
    dsimp only [applyOp]
    unfold setValueProp
    cases v
    · exact checkedInv_removeAttribute h _
    · exact checkedInv_setAttribute h _ _
  | setAttr a v => exact checkedInv_setAttribute h a v
  | removeAttr a => exact checkedInv_removeAttribute h a
  | userClick =>
    dsimp only [applyOp]
    unfold onClick
    split
    · exact h
    · exact checkedInv_nativeClick s
  | keyDown k =>
    dsimp only [applyOp]
    unfold onKeyDown
    split
    · exact h
    · split
      · exact checkedInv_nativeClick s
      · exact h
  | toggle => exact checkedInv_refreshAll (checkedInv_syncCheckedAttr _)
  | formReset =>
    dsimp only [applyOp]
    rw [onFormReset_eq]
    refine checkedInv_refreshAll ?_
    have h1 : CheckedInv (setCheckedProp s s.defaultChecked) := by
      unfold setCheckedProp
      split
      · exact checkedInv_setAttribute h _ _
      · exact checkedInv_removeAttribute h _
    unfold setIndeterminateProp
    split
    · exact checkedInv_setAttribute h1 _ _
    · exact checkedInv_removeAttribute h1 _
  | customMessage m =>
    dsimp only [applyOp]
    refine checkedInv_congr ?_ (setCustomValidity_attrs s m) h
    rw [setCustomValidity_native]
  | validityCheck =>
    dsimp only [applyOp]
    rw [checkValidityRun_fst]
    exact checkedInv_congr (by simp) (by simp) h
  | connectTo f =>
    dsimp only [applyOp]
    refine checkedInv_congr ?_ (connect_attrs s f) h
    rw [connect_native]
  | disconnectEl => exact h

/-- Witness for C1 at a concrete input: the fresh element satisfies the
invariant and keeps it across `toggle()`. -/
theorem checked_property_attribute_sync_witness :
    CheckedInv (applyOp .toggle (mkToggle true)).1 :=
  checked_property_attribute_sync (mkToggle true) .toggle rfl

/-- C3: every public operation preserves form-value consistency: through
`ElementInternals` the submitted value is the element's `value` property
when checked and null when unchecked, and the fallback hidden input carries
the `value` property when checked and has neither `name` nor `value`
attribute when unchecked. -/
theorem form_value_consistency (s : ToggleState) (o : Op) (h : formOk s = true) :
    formOk (applyOp o s).1 = true := by
  cases o with
  | setChecked b =>
    dsimp only [applyOp]
    unfold setCheckedProp
    split
    · exact formOk_setAttribute h _ _
    · exact formOk_removeAttribute h _
  | setDisabled b =>
    dsimp only [applyOp]
    unfold setDisabledProp
    split
    · exact formOk_setAttribute h _ _
    · exact formOk_removeAttribute h _
  | setIndeterminate b =>
    dsimp only [applyOp]
    unfold setIndeterminateProp
    split
    · exact formOk_setAttribute h _ _
    · exact formOk_removeAttribute h _
  | setRequired b =>
    dsimp only [applyOp]
    unfold setRequiredProp
    split
    · exact formOk_setAttribute h _ _
    · exact formOk_removeAttribute h _
  | setName v =>
    dsimp only [applyOp]
    unfold setNameProp
    cases v
    · exact formOk_removeAttribute h _
    · exact formOk_setAttribute h _ _
  | setValue v =>
    dsimp only [applyOp]
    unfold setValueProp
    cases v
    · exact formOk_removeAttribute h _
    · exact formOk_setAttribute h _ _
  | setAttr a v => exact formOk_setAttribute h a v
  | removeAttr a => exact formOk_removeAttribute h a
  | userClick =>
    dsimp only [applyOp]
    unfold onClick
    split
    · exact h
    · exact formOk_nativeClick s
  | keyDown k =>
    dsimp only [applyOp]
    unfold onKeyDown
    split
    · exact h
    · split
      · exact formOk_nativeClick s
      · exact h
  | toggle => exact formOk_refreshAll _
  | formReset =>
    dsimp only [applyOp]
    rw [onFormReset_eq]
    exact formOk_refreshAll _
  | customMessage m =>
    dsimp only [applyOp]
    rw [formOk_setCustomValidity]
    exact h
  | validityCheck =>
    dsimp only [applyOp]
    rw [checkValidityRun_fst, formOk_updateValidity]
    exact h
  | connectTo f =>
    dsimp only [applyOp]
    unfold connect connectedCallback
    refine formOk_ensure ?_
    rw [formOk_updateValidity]
    refine formOk_updateFormValue ?_
    rw [formOk_congr rfl rfl rfl rfl rfl]
    exact h
  | disconnectEl =>
    dsimp only [applyOp]
    unfold disconnect
    rw [formOk_congr rfl rfl rfl rfl rfl]
    exact h

/-- Witness for C3: the fresh element is consistent and stays so across a
user click. -/
theorem form_value_consistency_witness :
    formOk (applyOp .userClick (mkToggle false)).1 = true :=
  form_value_consistency (mkToggle false) .userClick (by decide)

/-- C5: a user click on a non-disabled element dispatches exactly a bubbling
composed `input` event, a bubbling composed `change` event and a host
`click`; Space/`Spacebar`/Enter keydowns dispatch `input` then `change`;
programmatic changes (checked setter, attribute set/removal, `toggle()`,
form reset) dispatch no event at all. -/
theorem input_change_events_only_on_user_interaction (s : ToggleState)
    (h : s.native.disabled = false) :
    (applyOp .userClick s).2 = [inputEv, changeEv, clickEv] ∧
    (applyOp (.keyDown " ") s).2 = [inputEv, changeEv] ∧
    (applyOp (.keyDown "Spacebar") s).2 = [inputEv, changeEv] ∧
    (applyOp (.keyDown "Enter") s).2 = [inputEv, changeEv] ∧
    inputEv.bubbles = true ∧ inputEv.composed = true ∧
    changeEv.bubbles = true ∧ changeEv.composed = true ∧
    (∀ b, (applyOp (.setChecked b) s).2 = []) ∧
    (∀ a v, (applyOp (.setAttr a v) s).2 = []) ∧
    (∀ a, (applyOp (.removeAttr a) s).2 = []) ∧
    (applyOp .toggle s).2 = [] ∧
    (applyOp .formReset s).2 = [] := by
  refine ⟨?_, ?_, ?_, ?_, rfl, rfl, rfl, rfl, fun b => rfl, fun a v => rfl,
    fun a => rfl, rfl, rfl⟩
  · simp [applyOp, onClick, nativeClick, onNativeInput, onNativeChange, h]
  · simp [applyOp, onKeyDown, nativeClick, onNativeInput, onNativeChange, h]
  · simp [applyOp, onKeyDown, nativeClick, onNativeInput, onNativeChange, h]
  · simp [applyOp, onKeyDown, nativeClick, onNativeInput, onNativeChange, h]

/-- Witness for C5 at the fresh element. -/
theorem input_change_events_witness :
    (applyOp .userClick (mkToggle true)).2 = [inputEv, changeEv, clickEv] :=
  (input_change_events_only_on_user_interaction (mkToggle true) rfl).1

/-- C6: on a disabled element a user click and any keydown leave the entire
modelled state unchanged (checked, indeterminate, form value, validity
included) and dispatch no event. -/
theorem disabled_blocks_user_interaction (s : ToggleState)
    (h : s.native.disabled = true) :
    applyOp .userClick s = (s, []) ∧ ∀ k, applyOp (.keyDown k) s = (s, []) := by
  constructor
  · simp [applyOp, onClick, h]
  · intro k
    simp [applyOp, onKeyDown, h]

/-- Witness for C6 on a concretely disabled element. -/
theorem disabled_blocks_user_interaction_witness :
    applyOp .userClick disabledExample = (disabledExample, []) :=
  (disabled_blocks_user_interaction disabledExample (by decide)).1

/-- C9: without a `value` attribute the `value` property reads `"on"`, and
assigning null to the `value` property removes the attribute, after which
the property again reads `"on"`. -/
theorem value_property_defaults_on (s : ToggleState) :
    (getAttr s .value = none → valueProp s = "on") ∧
    getAttr (setValueProp s none) .value = none ∧
    valueProp (setValueProp s none) = "on" := by
  refine ⟨fun hv => ?_, ?_, ?_⟩
  · rw [valueProp, hv]
    rfl
  · show getAttr (removeAttribute s .value) .value = none
    rw [removeAttribute_getAttr, if_pos rfl]
  · show valueProp (removeAttribute s .value) = "on"
    rw [valueProp, removeAttribute_getAttr, if_pos rfl]
    rfl

/-- C2 (code bug): `toggle()` on an element carrying the `indeterminate`
attribute clears the native `indeterminate` property but leaves the
attribute on the host, so afterwards the property (false) and the attribute
(present) disagree. -/
theorem toggle_breaks_indeterminate_sync :
    indetToggleExample.native.indeterminate = true ∧
    hasAttr indetToggleExample .indeterminate = true ∧
    (toggleMethod indetToggleExample).native.indeterminate = false ∧
    hasAttr (toggleMethod indetToggleExample) .indeterminate = true := by
  decide

/-- C10 (code bug): a user click on an indeterminate element fires the
native events after the browser has already cleared the native
`indeterminate` property, so the guarded `removeAttribute('indeterminate')`
in the handlers never runs and the attribute survives the interaction. -/
theorem user_click_keeps_indeterminate_attribute :
    indetClickExample.native.indeterminate = true ∧
    (onClick indetClickExample).1.native.indeterminate = false ∧
    hasAttr (onClick indetClickExample).1 .indeterminate = true ∧
    (onClick indetClickExample).2 = [inputEv, changeEv, clickEv] := by
  decide

/-- C4: form participation is chosen by feature detection — with
`attachInternals` the constructor keeps `ElementInternals` and
`_updateFormValue` never touches the hidden input, without it
`_updateFormValue` is exactly the hidden-input path; `_ensureHiddenInput`
creates the fallback hidden input exactly when there is no
`ElementInternals`, the element sits in a form and its name is non-empty,
and removes it when the element is no longer inside a form. -/
theorem hidden_input_fallback_choice (s : ToggleState) (h : s.isConnected = true) :
    ((mkToggle true).internals.isSome = true ∧ (mkToggle false).internals = none) ∧
    (s.internals.isSome = true → (updateFormValue s).hiddenInput = s.hiddenInput) ∧
    (s.internals = none → updateFormValue s = updateHiddenInput s) ∧
    (s.hiddenInput = none →
      ((ensureHiddenInput s).hiddenInput.isSome = true ↔
        (s.internals = none ∧ s.inForm = true ∧ nameTruthy s = true))) ∧
    (s.inForm = false → (ensureHiddenInput s).hiddenInput = none) := by
  refine ⟨⟨rfl, rfl⟩, ?_, ?_, ?_, ?_⟩
  · intro hi
    rw [updateFormValue_eq]
    show hiddenAfterFV s = s.hiddenInput
    unfold hiddenAfterFV
    cases hs : s.internals
    · rw [hs] at hi
      simp at hi
    · rfl
  · intro hi
    simp [updateFormValue, hi]
  · intro hH
    rw [ensureHiddenInput_eq]
    show (ensureHidden s).isSome = true ↔ _
    unfold ensureHidden
    rw [h, hH]
    cases hf : s.inForm <;> cases hs : s.internals <;> cases hn : nameTruthy s <;>
      simp [hs, hn]
  · intro hf
    rw [ensureHiddenInput_eq]
    show ensureHidden s = none
    unfold ensureHidden
    rw [h, hf]
    cases hh : s.hiddenInput <;> simp

/-- Witness for C4: the constructor's feature detection at both concrete
settings, obtained from the theorem at a connected element. -/
theorem hidden_input_fallback_choice_witness :
    (mkToggle true).internals.isSome = true ∧ (mkToggle false).internals = none :=
  (hidden_input_fallback_choice connExample rfl).1

/-- C7: `checkValidity()` returns true exactly when the element is not
required-and-unchecked and no non-empty custom validity message is set; in
the required-and-unchecked case the reported `ElementInternals` validity has
`valueMissing` set, and without internals the element is marked
`aria-invalid`. -/
theorem check_validity_required_unchecked (s : ToggleState) :
    ((checkValidityRun s).2 = true ↔
      (¬(requiredProp s = true ∧ s.native.checked = false) ∧ s.customValidity = "")) ∧
    (requiredProp s = true → s.native.checked = false →
      (∀ i, (checkValidityRun s).1.internals = some i → i.validity.valueMissing = true) ∧
      ((checkValidityRun s).1.internals = none →
        (checkValidityRun s).1.ariaInvalid = true)) := by
  constructor
  · rw [checkValidityRun_snd]
    cases hr : requiredProp s <;> cases hc : s.native.checked <;>
      by_cases hcv : s.customValidity = "" <;> simp [hr, hc, hcv, beq_iff_eq]
  · intro hr hc
    constructor
    · intro i hi
      rw [checkValidityRun_fst, updateValidity_internals] at hi
      unfold internalsAfterUV at hi
      cases hs : s.internals
      · rw [hs] at hi
        simp at hi
      · rw [hs] at hi
        have hi2 := Option.some.inj hi
        rw [← hi2]
        simp [validityNow, hr, hc]
    · intro hnone
      rw [checkValidityRun_fst, updateValidity_internals] at hnone
      unfold internalsAfterUV at hnone
      rw [checkValidityRun_fst, updateValidity_ariaInvalid]
      unfold ariaAfterUV
      cases hs : s.internals
      · simp [validityNow, hr, hc]
      · rw [hs] at hnone
        simp at hnone

/-- C8: after a form reset the `checked` and `indeterminate` attributes
equal the defaults captured in `connectedCallback` (which records the
attributes present at connection time), whatever happened in between, and
the form value and validity are recomputed from the restored default
checkedness. -/
theorem form_reset_restores_defaults (s : ToggleState) (h : CheckedInv s) :
    hasAttr (onFormReset s) .checked = s.defaultChecked ∧
    hasAttr (onFormReset s) .indeterminate = s.defaultIndeterminate ∧
    (onFormReset s).native.checked = s.defaultChecked ∧
    (∀ f, (connect s f).defaultChecked = hasAttr s .checked ∧
      (connect s f).defaultIndeterminate = hasAttr s .indeterminate) ∧
    (∀ i, (onFormReset s).internals = some i →
      i.formValue = (if s.defaultChecked then some (valueProp s) else none) ∧
      i.validity.valueMissing = (requiredProp s && !s.defaultChecked) ∧
      i.validity.customError = (s.customValidity != "")) ∧
    ((onFormReset s).internals = none →
      (onFormReset s).ariaInvalid =
        ((requiredProp s && !s.defaultChecked) || (s.customValidity != ""))) ∧
    formOk (onFormReset s) = true := by
  have f1 : hasAttr (setIndeterminateProp (setCheckedProp s s.defaultChecked)
      s.defaultIndeterminate) .checked = s.defaultChecked := by
    rw [hasAttr, setIndeterminateProp_getAttr_ne _ _ (by simp), ← hasAttr,
      setCheckedProp_hasAttr_checked]
  have f2 : hasAttr (setIndeterminateProp (setCheckedProp s s.defaultChecked)
      s.defaultIndeterminate) .indeterminate = s.defaultIndeterminate :=
    setIndeterminateProp_hasAttr_indet _ _
  have f3 : (setIndeterminateProp (setCheckedProp s s.defaultChecked)
      s.defaultIndeterminate).native.checked = s.defaultChecked := by
    rw [setIndeterminateProp_native_checked, setCheckedProp_native_checked h]
  have f4 : valueProp (setIndeterminateProp (setCheckedProp s s.defaultChecked)
      s.defaultIndeterminate) = valueProp s := by
    rw [valueProp, setIndeterminateProp_getAttr_ne _ _ (by simp),
      setCheckedProp_getAttr_ne _ _ (by simp), valueProp]
  have f5 : requiredProp (setIndeterminateProp (setCheckedProp s s.defaultChecked)
      s.defaultIndeterminate) = requiredProp s := by
    rw [requiredProp, hasAttr, setIndeterminateProp_getAttr_ne _ _ (by simp),
      setCheckedProp_getAttr_ne _ _ (by simp), ← hasAttr, requiredProp]
  have f6 : (setIndeterminateProp (setCheckedProp s s.defaultChecked)
      s.defaultIndeterminate).customValidity = s.customValidity := by
    rw [setIndeterminateProp_customValidity, setCheckedProp_customValidity]
  refine ⟨?_, ?_, ?_, ?_, ?_, ?_, ?_⟩
  · rw [onFormReset_eq, hasAttr, getAttr_of_attrs_eq (refreshAll_attrs _), ← hasAttr, f1]
  · rw [onFormReset_eq, hasAttr, getAttr_of_attrs_eq (refreshAll_attrs _), ← hasAttr, f2]
  · rw [onFormReset_eq, refreshAll_native, f3]
  · intro f
    constructor
    · show (connectedCallback _).defaultChecked = _
      unfold connectedCallback
      simp [hasAttr]
    · show (connectedCallback _).defaultIndeterminate = _
      unfold connectedCallback
      simp [hasAttr]
  · intro i hi
    rw [onFormReset_eq, refreshAll_internals] at hi
    cases hs2 : (setIndeterminateProp (setCheckedProp s s.defaultChecked)
        s.defaultIndeterminate).internals
    · rw [hs2] at hi
      simp at hi
    · rw [hs2] at hi
      have hi2 := Option.some.inj hi
      rw [← hi2]
      refine ⟨?_, ?_, ?_⟩
      · show formValueOf _ = _
        rw [formValueOf, f3, f4]
      · show (validityNow _).valueMissing = _
        rw [validityNow]
        dsimp only
        rw [f5, f3]
      · show (validityNow _).customError = _
        rw [validityNow]
        dsimp only
        rw [f6]
  · intro hnone
    rw [onFormReset_eq, refreshAll_internals] at hnone
    rw [Option.map_eq_none'] at hnone
    rw [onFormReset_eq, refreshAll_ariaInvalid_none hnone, f5, f3, f6]
  · rw [onFormReset_eq]
    exact formOk_refreshAll _

/-- Witness for C8: a concretely connected, default-checked element. -/
theorem form_reset_restores_defaults_witness :
    hasAttr (onFormReset resetExample) .checked = resetExample.defaultChecked :=
  (form_reset_restores_defaults resetExample rfl).1

end ToggleInput
